import Mathlib

/-!
Verification development for the Glue smart-lock integration:
a shallow embedding of the resilient API client (caching, cache
invalidation, retry with exponential backoff) and of the device-side
state reconciler (lock-state determination, optimistic operations with
rollback, degraded fallback on poll failure, adaptive polling interval),
together with theorems settling the specification claims about them.

Conventions of the embedding:
* Timestamps and durations are integers (epoch milliseconds); the ISO
  timestamp strings the code stores are represented by the instant they
  denote, since the code only ever uses them through Date parsing.
* The polling-interval arithmetic is carried out in the rationals, since
  the source divides the base interval by 4 and scales it by
  1 + errors * 0.5.
* A network interaction is represented by the outcome the wire would
  produce; asynchronous waiting is represented by recording the delay
  that would be awaited.
-/

namespace Glue

/-! ## String utilities mirroring the JavaScript primitives used -/

/-- Mirror of JavaScript String.prototype.toLowerCase restricted to the
character-wise lowering the event-type strings need. -/
def lowerStr (s : String) : String :=
  ⟨s.data.map Char.toLower⟩

/-- Whether the first list occurs at the head of the second. -/
def headMatch : List Char → List Char → Bool
  | [], _ => true
  | _ :: _, [] => false
  | a :: as, b :: bs => a == b && headMatch as bs

/-- Whether the first list occurs contiguously anywhere in the second. -/
def occursIn (needle : List Char) : List Char → Bool
  | [] => headMatch needle []
  | c :: rest => headMatch needle (c :: rest) || occursIn needle rest

/-- Mirror of JavaScript String.prototype.includes. -/
def strIncludes (hay needle : String) : Bool :=
  occursIn needle.data hay.data

/-! ## Configuration (src/lib/config.ts) -/

def RETRY_MAX_ATTEMPTS : Nat := 3
def RETRY_INITIAL_DELAY : Nat := 1000
def RETRY_MAX_DELAY : Nat := 10000
def CACHE_TTL : Int := 30000
def POLLING_DEFAULT_INTERVAL : ℚ := 20
def POLLING_MIN_INTERVAL : ℚ := 1
def POLLING_MAX_INTERVAL : ℚ := 60

/-- EVENT_TYPES.LOCK from src/lib/config.ts. -/
def EVENT_TYPES_LOCK : List String := ["remotelock", "manuallock", "locallock"]

/-- EVENT_TYPES.UNLOCK from src/lib/config.ts. -/
def EVENT_TYPES_UNLOCK : List String := ["remoteunlock", "manualunlock", "localunlock"]

/-! ## Lock state model (src/lib/types.ts) -/

/-- Last lock/unlock event of a status snapshot; the timestamp is the
instant the ISO string denotes. -/
structure LockEvent where
  eventType : String
  timestamp : Int
deriving Repr, DecidableEq

/-- The fields of a LockStatus snapshot the reconciler reads. -/
structure LockStatus where
  batteryStatus : Int
  lastLockEvent : LockEvent
deriving Repr, DecidableEq

/-! ## GlueDevice.determineLockState (src/drivers/glue/device.ts) -/

/-- Mirror of GlueDevice.determineLockState: lowercase the last event
type, then (firmware-compatible) test membership in the closed lock set,
or (legacy) test absence of the substring "unlock". -/
def determineLockState (isFirmwareCompatible : Bool) (lockStatus : LockStatus) : Bool :=
  let eventType := lowerStr lockStatus.lastLockEvent.eventType
  if isFirmwareCompatible then
    EVENT_TYPES_LOCK.contains eventType
  else
    !(strIncludes eventType "unlock")

/-- Build a status snapshot carrying a given event type. -/
def statusWithEvent (e : String) : LockStatus :=
  { batteryStatus := 80, lastLockEvent := { eventType := e, timestamp := 0 } }

/-! ## GlueApiClient error handling (src/lib/api-client.ts) -/

/-- The HTTP response attached to an axios error, when one was received. -/
structure HttpResponse where
  status : Nat
  data : String
deriving Repr, DecidableEq

/-- The fields of an AxiosError the error handler reads. -/
structure AxiosErrorInfo where
  message : String
  code : Option String
  response : Option HttpResponse
deriving Repr, DecidableEq

/-- The normalized ApiError the client throws. -/
structure ApiError where
  message : String
  code : Option String
  response : Option HttpResponse
deriving Repr, DecidableEq

/-- handleApiError builds the normalized error from the axios error:
original message, optional code, original response. -/
def normalizeError (e : AxiosErrorInfo) : ApiError :=
  { message := e.message, code := e.code, response := e.response }

/-- Mirror of GlueApiClient.shouldRetry: retry on network errors (no
response) or 5xx server errors. -/
def shouldRetry (e : AxiosErrorInfo) : Bool :=
  match e.response with
  | none => true
  | some r => decide (500 ≤ r.status) && decide (r.status < 600)

/-- What the wire produces for one attempt of a request. -/
inductive Outcome where
  | success (body : String)
  | failure (e : AxiosErrorInfo)
deriving Repr, DecidableEq

/-- The backoff delay handleApiError awaits before the replay numbered
by the just-incremented retry counter. -/
def retryDelay (attempts : Nat) : Nat :=
  min (RETRY_INITIAL_DELAY * 2 ^ (attempts - 1)) RETRY_MAX_DELAY

/-- One request resolving through the response interceptor: attempt
number idx draws its outcome from the wire; a failure enters
handleApiError, which on a retryable error below the attempt ceiling
increments the counter, waits the backoff delay and replays, and
otherwise zeroes the counter and throws the normalized error. A
successful response passes through the identity success interceptor,
which does not touch the counter. Returns the retry counter after
resolution, the list of backoff delays awaited (one per replay), and
the resolved value. -/
def processAttempts (retryCount : Nat) (wire : Nat → Outcome) (idx : Nat) :
    Nat × List Nat × Except ApiError String :=
  match wire idx with
  | Outcome.success b => (retryCount, [], Except.ok b)
  | Outcome.failure e =>
    if shouldRetry e = true ∧ retryCount < RETRY_MAX_ATTEMPTS then
      let out := processAttempts (retryCount + 1) wire (idx + 1)
      (out.1, retryDelay (retryCount + 1) :: out.2.1, out.2.2)
    else
      (0, [], Except.error (normalizeError e))
termination_by RETRY_MAX_ATTEMPTS - retryCount
decreasing_by omega

/-- A retryable network failure with no HTTP response. -/
def netErr : AxiosErrorInfo :=
  { message := "Network Error", code := some "ECONNABORTED", response := none }

/-! ## GlueApiClient cache (src/lib/api-client.ts) -/

/-- The cache entry stored for a successful GET. -/
structure CacheEntry where
  data : String
  timestamp : Int
deriving Repr, DecidableEq

/-- The client's cache map; lookups read the most recent binding. -/
abbrev Cache := List (String × CacheEntry)

/-- Map.get: the most recently set value for the key, if any. -/
def cacheGet (key : String) : Cache → Option CacheEntry
  | [] => none
  | (k, v) :: rest => if k == key then some v else cacheGet key rest

/-- Map.set: bind the key to the value. -/
def cacheSet (key : String) (v : CacheEntry) (c : Cache) : Cache :=
  (key, v) :: c

/-- Map.delete: remove every binding of the key. -/
def cacheDelete (key : String) : Cache → Cache
  | [] => []
  | (k, v) :: rest =>
    if k == key then cacheDelete key rest else (k, v) :: cacheDelete key rest

/-- JSON.stringify of the params field, which is absent on the status
requests the client builds. -/
def jsonStringifyParams : Option String → String
  | none => "undefined"
  | some p => p

/-- Mirror of GlueApiClient.getCacheKey: method, url and stringified
params joined with dashes. -/
def getCacheKey (method url : String) (params : Option String) : String :=
  method ++ "-" ++ url ++ "-" ++ jsonStringifyParams params

/-- The status path of a lock: ENDPOINTS.LOCKS followed by the id. -/
def lockStatusPath (lockId : String) : String :=
  "/locks/" ++ lockId

/-- The cache key under which a lock's status responses live. -/
def statusCacheKey (lockId : String) : String :=
  getCacheKey "get" (lockStatusPath lockId) none

/-- What one status GET produced: the body handed back, whether it was
served from the cache, the cache afterwards, and whether a network call
was issued. -/
structure FetchResult where
  body : String
  cached : Bool
  cache : Cache
  networkCall : Bool
deriving Repr, DecidableEq

/-- Mirror of one GlueApiClient.getLockStatus call through the caching
request interceptor: with caching enabled, a non-expired entry under the
status key is returned as a response marked cached, with no network
call; otherwise the wire is called and the successful body is stored
under the status key with the current instant; with caching disabled
the cache is neither consulted nor populated. -/
def getLockStatus (cacheEnabled : Bool) (ttl now : Int)
    (cache : Cache) (lockId : String) (wireBody : String) : FetchResult :=
  if cacheEnabled then
    match cacheGet (statusCacheKey lockId) cache with
    | some entry =>
      if now - entry.timestamp < ttl then
        { body := entry.data, cached := true, cache := cache, networkCall := false }
      else
        { body := wireBody, cached := false,
          cache := cacheSet (statusCacheKey lockId) { data := wireBody, timestamp := now } cache,
          networkCall := true }
    | none =>
      { body := wireBody, cached := false,
        cache := cacheSet (statusCacheKey lockId) { data := wireBody, timestamp := now } cache,
        networkCall := true }
  else
    { body := wireBody, cached := false, cache := cache, networkCall := true }

/-- Mirror of the cache effect of a GlueApiClient.sendOperation call
whose POST succeeded: with caching enabled the entry under the lock's
status key is deleted before the method returns. -/
def sendOperation (cacheEnabled : Bool) (cache : Cache) (lockId : String) : Cache :=
  if cacheEnabled then cacheDelete (statusCacheKey lockId) cache else cache

/-- Deleting a key removes every binding of it. -/
theorem cacheGet_cacheDelete (key : String) (c : Cache) :
    cacheGet key (cacheDelete key c) = none := by
  induction c with
  | nil => rfl
  | cons p rest ih =>
    obtain ⟨k, v⟩ := p
    by_cases h : (k == key) = true
    · simp [cacheDelete, h, ih]
    · simp [cacheDelete, h, cacheGet, ih]

/-- A successful attempt resolves with the current retry counter and no
further delay. -/
theorem processAttempts_success (rc idx : Nat) (wire : Nat → Outcome) (b : String)
    (h : wire idx = Outcome.success b) :
    processAttempts rc wire idx = (rc, [], Except.ok b) := by
  rw [processAttempts, h]

/-- A retryable failure below the ceiling increments the counter, waits
the backoff delay for the incremented counter, and replays. -/
theorem processAttempts_retryStep (rc idx : Nat) (wire : Nat → Outcome) (e : AxiosErrorInfo)
    (h : wire idx = Outcome.failure e) (hr : shouldRetry e = true)
    (hc : rc < RETRY_MAX_ATTEMPTS) :
    processAttempts rc wire idx
      = ((processAttempts (rc + 1) wire (idx + 1)).1,
         retryDelay (rc + 1) :: (processAttempts (rc + 1) wire (idx + 1)).2.1,
         (processAttempts (rc + 1) wire (idx + 1)).2.2) := by
  rw [processAttempts, h]
  simp [hr, hc]

/-- A failure that is terminal, or arrives with the counter at the
ceiling, zeroes the counter and throws the normalized error. -/
theorem processAttempts_terminal (rc idx : Nat) (wire : Nat → Outcome) (e : AxiosErrorInfo)
    (h : wire idx = Outcome.failure e)
    (hstop : ¬(shouldRetry e = true ∧ rc < RETRY_MAX_ATTEMPTS)) :
    processAttempts rc wire idx = (0, [], Except.error (normalizeError e)) := by
  rw [processAttempts, h]
  simp [hstop]

/-- The wire of a request whose first attempt fails with a retryable
network error and whose single replay succeeds. -/
def retriedSuccessWire : Nat → Outcome :=
  fun i => if i = 0 then Outcome.failure netErr else Outcome.success "ok"

/-- A 400-class failure: terminal, never replayed. -/
def badRequestErr : AxiosErrorInfo :=
  { message := "Bad Request", code := none, response := some { status := 400, data := "bad" } }

/-! ## GlueDevice state and polling (src/drivers/glue/device.ts) -/

/-- The lastKnownState record: the confirmed observed device state. -/
structure KnownState where
  locked : Bool
  timestamp : Int
  batteryStatus : Int
deriving Repr, DecidableEq

/-- The mutable fields of a GlueDevice the claims are about, together
with the capability values most recently published to the hub. -/
structure DeviceState where
  isFirmwareCompatible : Bool
  lastKnownState : Option KnownState
  lastOperationTime : Int
  consecutiveErrors : Nat
  publishedLocked : Option Bool
  publishedBattery : Option Int
deriving Repr, DecidableEq

/-- The JavaScript or-with-default on the polling setting: an absent or
zero (falsy) setting falls back to the default. -/
def settingOrDefault : Option ℚ → ℚ
  | none => POLLING_DEFAULT_INTERVAL
  | some v => if v = 0 then POLLING_DEFAULT_INTERVAL else v

/-- The base polling interval: the configured minutes clamped to
[MIN_INTERVAL, MAX_INTERVAL] and converted to milliseconds. -/
def baseInterval (settingsInterval : Option ℚ) : ℚ :=
  min (max (settingOrDefault settingsInterval) POLLING_MIN_INTERVAL) POLLING_MAX_INTERVAL
    * 60 * 1000

/-- Mirror of GlueDevice.getPollingInterval: within 60000 ms of a user
operation poll at max(base / 4, 5000); otherwise with more than one
consecutive error back off to min(base * (1 + errors * 0.5), base * 5);
otherwise use the base interval. -/
def getPollingInterval (settingsInterval : Option ℚ) (now lastOperationTime : Int)
    (consecutiveErrors : Nat) : ℚ :=
  let base := baseInterval settingsInterval
  if now - lastOperationTime < 60000 then
    max (base / 4) 5000
  else if 1 < consecutiveErrors then
    min (base * (1 + (consecutiveErrors : ℚ) * (1 / 2))) (base * 5)
  else
    base

/-- Mirror of GlueDevice.isStateValid: the stored state's age does not
exceed the current polling interval. -/
def isStateValid (settingsInterval : Option ℚ) (now lastOperationTime : Int)
    (consecutiveErrors : Nat) (timestamp : Int) : Bool :=
  decide (((now - timestamp : Int) : ℚ)
    ≤ getPollingInterval settingsInterval now lastOperationTime consecutiveErrors)

/-- Mirror of GlueDevice.onLockOperation up to the operation's
resolution (the delayed post-operation reconciliation is a separate
pass): record the operation instant, optimistically publish the
requested value, submit; on success zero the consecutive-error counter
and return normally; on failure increment the counter, revert the
published value to the last known state when one exists, and rethrow
the error. -/
def onLockOperation (s : DeviceState) (now : Int) (locked : Bool)
    (submitResult : Except ApiError Unit) : DeviceState × Except ApiError Unit :=
  let s1 := { s with lastOperationTime := now, publishedLocked := some locked }
  match submitResult with
  | Except.ok _ => ({ s1 with consecutiveErrors := 0 }, Except.ok ())
  | Except.error err =>
    let s2 := { s1 with consecutiveErrors := s1.consecutiveErrors + 1 }
    match s2.lastKnownState with
    | some k => ({ s2 with publishedLocked := some k.locked }, Except.error err)
    | none => (s2, Except.error err)

/-- Mirror of GlueDevice.loadCurrentLockState: on a successful fetch,
determine the locked flag, overwrite lastKnownState, publish battery
and locked, and zero the consecutive-error counter; on a fetch failure,
increment the counter and, when a last known state exists and is still
valid against the polling interval computed with the incremented
counter, republish its locked flag, otherwise leave the published
values untouched. The catch-all in the source makes the pass total: it
never rethrows, which the plain DeviceState return type reflects. -/
def loadCurrentLockState (s : DeviceState) (settingsInterval : Option ℚ) (now : Int)
    (fetchResult : Except ApiError LockStatus) : DeviceState :=
  match fetchResult with
  | Except.ok lockStatus =>
    let deviceIsLocked := determineLockState s.isFirmwareCompatible lockStatus
    { s with
      lastKnownState := some { locked := deviceIsLocked,
                               timestamp := lockStatus.lastLockEvent.timestamp,
                               batteryStatus := lockStatus.batteryStatus },
      publishedBattery := some lockStatus.batteryStatus,
      publishedLocked := some deviceIsLocked,
      consecutiveErrors := 0 }
  | Except.error _ =>
    let s1 := { s with consecutiveErrors := s.consecutiveErrors + 1 }
    match s1.lastKnownState with
    | some k =>
      if isStateValid settingsInterval now s1.lastOperationTime s1.consecutiveErrors
          k.timestamp then
        { s1 with publishedLocked := some k.locked }
      else s1
    | none => s1

end Glue

/-! ## Claim C1 -/

/-- C1 (failing input): a request whose first attempt fails with a
retryable network error and whose single replay succeeds resolves
successfully, yet the retry counter reads 1 afterwards, not 0 — the
success interceptor is the identity and never resets the counter, only
the exhaustion/terminal path does, so the next unrelated request starts
with a reduced retry budget. -/
theorem Glue.retryCount_leaks_after_retried_success :
    Glue.processAttempts 0 Glue.retriedSuccessWire 0
      = (1, [Glue.retryDelay 1], Except.ok "ok")
    ∧ (Glue.processAttempts 0 Glue.retriedSuccessWire 0).1 ≠ 0 := by
  have h1 : Glue.processAttempts 1 Glue.retriedSuccessWire 1 = (1, [], Except.ok "ok") :=
    Glue.processAttempts_success 1 1 Glue.retriedSuccessWire "ok" rfl
  have h0 : Glue.processAttempts 0 Glue.retriedSuccessWire 0
      = (1, [Glue.retryDelay 1], Except.ok "ok") := by
    rw [Glue.processAttempts_retryStep 0 0 Glue.retriedSuccessWire Glue.netErr rfl
      (by decide) (by decide), h1]
  exact ⟨h0, by rw [h0]; decide⟩

/-! ## Claim C4 -/

/-- C4: from a fresh counter, a run of more than MAX_ATTEMPTS
consecutive retryable failures performs exactly MAX_ATTEMPTS replays,
the k-th replay preceded by the backoff delay
min(INITIAL_DELAY * 2 ^ (k - 1), MAX_DELAY), i.e. [1000, 2000, 4000];
the error of the final (fourth) attempt is propagated normalized, and
the retry counter reads 0 afterwards. -/
theorem Glue.retry_ceiling (wire : Nat → Glue.Outcome) (n : Nat)
    (hn : Glue.RETRY_MAX_ATTEMPTS < n)
    (hfail : ∀ i, i < n → ∃ e, wire i = Glue.Outcome.failure e ∧ Glue.shouldRetry e = true) :
    ∃ e, wire Glue.RETRY_MAX_ATTEMPTS = Glue.Outcome.failure e
      ∧ Glue.processAttempts 0 wire 0
          = (0, [Glue.retryDelay 1, Glue.retryDelay 2, Glue.retryDelay 3],
             Except.error (Glue.normalizeError e))
      ∧ [Glue.retryDelay 1, Glue.retryDelay 2, Glue.retryDelay 3] = [1000, 2000, 4000]
      ∧ [Glue.retryDelay 1, Glue.retryDelay 2, Glue.retryDelay 3].length
          = Glue.RETRY_MAX_ATTEMPTS := by
  have hn3 : 3 < n := hn
  obtain ⟨e0, h0, r0⟩ := hfail 0 (by omega)
  obtain ⟨e1, h1, r1⟩ := hfail 1 (by omega)
  obtain ⟨e2, h2, r2⟩ := hfail 2 (by omega)
  obtain ⟨e3, h3, r3⟩ := hfail 3 hn3
  have s3 : Glue.processAttempts 3 wire 3 = (0, [], Except.error (Glue.normalizeError e3)) :=
    Glue.processAttempts_terminal 3 3 wire e3 h3 (by simp [Glue.RETRY_MAX_ATTEMPTS])
  have s2 : Glue.processAttempts 2 wire 2
      = (0, [Glue.retryDelay 3], Except.error (Glue.normalizeError e3)) := by
    rw [Glue.processAttempts_retryStep 2 2 wire e2 h2 r2 (by decide), s3]
  have s1 : Glue.processAttempts 1 wire 1
      = (0, [Glue.retryDelay 2, Glue.retryDelay 3], Except.error (Glue.normalizeError e3)) := by
    rw [Glue.processAttempts_retryStep 1 1 wire e1 h1 r1 (by decide), s2]
  have s0 : Glue.processAttempts 0 wire 0
      = (0, [Glue.retryDelay 1, Glue.retryDelay 2, Glue.retryDelay 3],
         Except.error (Glue.normalizeError e3)) := by
    rw [Glue.processAttempts_retryStep 0 0 wire e0 h0 r0 (by decide), s1]
  exact ⟨e3, h3, s0, by decide, by decide⟩

/-- Witness for C4: four consecutive retryable network failures. -/
theorem Glue.retry_ceiling_witness :
    Glue.RETRY_MAX_ATTEMPTS < 4
    ∧ ∃ e, (fun _ : Nat => Glue.Outcome.failure Glue.netErr) Glue.RETRY_MAX_ATTEMPTS
          = Glue.Outcome.failure e
      ∧ Glue.processAttempts 0 (fun _ => Glue.Outcome.failure Glue.netErr) 0
          = (0, [Glue.retryDelay 1, Glue.retryDelay 2, Glue.retryDelay 3],
             Except.error (Glue.normalizeError e))
      ∧ [Glue.retryDelay 1, Glue.retryDelay 2, Glue.retryDelay 3] = [1000, 2000, 4000]
      ∧ [Glue.retryDelay 1, Glue.retryDelay 2, Glue.retryDelay 3].length
          = Glue.RETRY_MAX_ATTEMPTS :=
  ⟨by decide,
   Glue.retry_ceiling (fun _ => Glue.Outcome.failure Glue.netErr) 4 (by decide)
     (fun i _ => ⟨Glue.netErr, rfl, by decide⟩)⟩

/-! ## Claim C9 -/

/-- C9: a failure is retryable iff it carries no HTTP response at all or
its status lies in [500, 600); a non-retryable failure never triggers a
replay: it resolves immediately as the normalized error carrying the
original message, the optional code and the original response. -/
theorem Glue.error_classification (rc idx : Nat) (wire : Nat → Glue.Outcome)
    (e : Glue.AxiosErrorInfo) (hw : wire idx = Glue.Outcome.failure e) :
    (Glue.shouldRetry e = true ↔
      e.response = none ∨ ∃ r, e.response = some r ∧ 500 ≤ r.status ∧ r.status < 600)
    ∧ (Glue.shouldRetry e = false →
        Glue.processAttempts rc wire idx = (0, [], Except.error (Glue.normalizeError e))
        ∧ Glue.normalizeError e
            = { message := e.message, code := e.code, response := e.response }) := by
  constructor
  · cases hresp : e.response with
    | none => simp [Glue.shouldRetry, hresp]
    | some r => simp [Glue.shouldRetry, hresp]
  · intro hf
    refine ⟨Glue.processAttempts_terminal rc idx wire e hw ?_, rfl⟩
    simp [hf]

/-- Witness for C9: a single 400-class failure resolves terminally. -/
theorem Glue.error_classification_witness :
    (fun _ : Nat => Glue.Outcome.failure Glue.badRequestErr) 0
        = Glue.Outcome.failure Glue.badRequestErr
    ∧ Glue.shouldRetry Glue.badRequestErr = false
    ∧ Glue.processAttempts 0 (fun _ => Glue.Outcome.failure Glue.badRequestErr) 0
        = (0, [], Except.error (Glue.normalizeError Glue.badRequestErr)) :=
  ⟨rfl, by decide,
   ((Glue.error_classification 0 0 (fun _ => Glue.Outcome.failure Glue.badRequestErr)
      Glue.badRequestErr rfl).2 (by decide)).1⟩

/-! ## Claim C3 -/

/-- C3: a successful operation submission deletes the lock's status
cache entry before returning, so a fetch immediately after a submit
finds no entry under the status key, issues a live network call, and
returns the live body rather than anything cached before the submit;
with caching disabled every fetch is a live network call anyway. -/
theorem Glue.submit_invalidates_status_cache (cache : Glue.Cache)
    (lockId wireBody : String) (ttl now : Int) :
    Glue.cacheGet (Glue.statusCacheKey lockId) (Glue.sendOperation true cache lockId) = none
    ∧ Glue.getLockStatus true ttl now (Glue.sendOperation true cache lockId) lockId wireBody
        = { body := wireBody, cached := false,
            cache := Glue.cacheSet (Glue.statusCacheKey lockId)
                       { data := wireBody, timestamp := now }
                       (Glue.sendOperation true cache lockId),
            networkCall := true }
    ∧ (Glue.getLockStatus false ttl now cache lockId wireBody).networkCall = true := by
  have hdel : Glue.cacheGet (Glue.statusCacheKey lockId)
      (Glue.sendOperation true cache lockId) = none := by
    simp [Glue.sendOperation, Glue.cacheGet_cacheDelete]
  refine ⟨hdel, ?_, rfl⟩
  simp [Glue.getLockStatus, hdel]

/-! ## Claim C7 -/

/-- C7: with caching enabled, a status fetch finding an entry of age
strictly less than the TTL is answered from the cache, marked cached,
with no network call and no cache change; an entry of age at least the
TTL is never served: the wire is called and its body stored under the
status key with the current instant, as also happens on a cache miss;
with caching disabled the cache is neither consulted nor populated. -/
theorem Glue.cache_policy (ttl now : Int) (cache : Glue.Cache) (lockId wireBody : String) :
    (∀ entry, Glue.cacheGet (Glue.statusCacheKey lockId) cache = some entry →
      (now - entry.timestamp < ttl →
        Glue.getLockStatus true ttl now cache lockId wireBody
          = { body := entry.data, cached := true, cache := cache, networkCall := false })
      ∧ (ttl ≤ now - entry.timestamp →
        Glue.getLockStatus true ttl now cache lockId wireBody
          = { body := wireBody, cached := false,
              cache := Glue.cacheSet (Glue.statusCacheKey lockId)
                         { data := wireBody, timestamp := now } cache,
              networkCall := true }))
    ∧ (Glue.cacheGet (Glue.statusCacheKey lockId) cache = none →
      Glue.getLockStatus true ttl now cache lockId wireBody
        = { body := wireBody, cached := false,
            cache := Glue.cacheSet (Glue.statusCacheKey lockId)
                       { data := wireBody, timestamp := now } cache,
            networkCall := true })
    ∧ Glue.getLockStatus false ttl now cache lockId wireBody
        = { body := wireBody, cached := false, cache := cache, networkCall := true } := by
  refine ⟨fun entry hget => ⟨fun hfresh => ?_, fun hstale => ?_⟩, fun hnone => ?_, rfl⟩
  · simp [Glue.getLockStatus, hget, hfresh]
  · simp [Glue.getLockStatus, hget, not_lt.mpr hstale]
  · simp [Glue.getLockStatus, hnone]

/-- Witness for C7: a fresh cache entry is served without a network
call. -/
theorem Glue.cache_policy_witness :
    Glue.cacheGet (Glue.statusCacheKey "lock-1")
        [(Glue.statusCacheKey "lock-1", { data := "cachedBody", timestamp := 0 })]
        = some { data := "cachedBody", timestamp := 0 }
    ∧ ((1000 : Int) - 0 < 30000)
    ∧ Glue.getLockStatus true 30000 1000
        [(Glue.statusCacheKey "lock-1", { data := "cachedBody", timestamp := 0 })]
        "lock-1" "liveBody"
        = { body := "cachedBody", cached := true,
            cache := [(Glue.statusCacheKey "lock-1", { data := "cachedBody", timestamp := 0 })],
            networkCall := false } := by
  have h := (Glue.cache_policy 30000 1000
      [(Glue.statusCacheKey "lock-1", { data := "cachedBody", timestamp := 0 })]
      "lock-1" "liveBody").1 { data := "cachedBody", timestamp := 0 } (by simp [Glue.cacheGet])
  exact ⟨by simp [Glue.cacheGet], by decide, h.1 (by decide)⟩

/-! ## Claim C2 -/

/-- C2: determineLockState lowers the event type and then applies one of
two policies selected by the firmware flag: membership of the closed lock
set when compatible, absence of the substring "unlock" when legacy; so
"scheduledMaintenance" is unlocked under the compatible policy but locked
under the legacy one, "localLock" is locked under both and "remoteUnlock"
unlocked under both. -/
theorem Glue.determineLockState_policies :
    (∀ st : Glue.LockStatus,
      Glue.determineLockState true st
        = Glue.EVENT_TYPES_LOCK.contains (Glue.lowerStr st.lastLockEvent.eventType))
    ∧ (∀ st : Glue.LockStatus,
      Glue.determineLockState false st
        = !(Glue.strIncludes (Glue.lowerStr st.lastLockEvent.eventType) "unlock"))
    ∧ Glue.determineLockState true (Glue.statusWithEvent "scheduledMaintenance") = false
    ∧ Glue.determineLockState false (Glue.statusWithEvent "scheduledMaintenance") = true
    ∧ Glue.determineLockState true (Glue.statusWithEvent "localLock") = true
    ∧ Glue.determineLockState false (Glue.statusWithEvent "localLock") = true
    ∧ Glue.determineLockState true (Glue.statusWithEvent "remoteUnlock") = false
    ∧ Glue.determineLockState false (Glue.statusWithEvent "remoteUnlock") = false := by
  refine ⟨fun st => rfl, fun st => rfl, ?_, ?_, ?_, ?_, ?_, ?_⟩ <;> decide

/-! ## Claim C10 -/

/-- C10: the two event-interpretation policies agree on every recognized
event type: a status whose lowercased event type lies in the known lock
set is locked under both policies, and one whose lowercased event type
lies in the known unlock set is unlocked under both; they can differ only
outside both sets. -/
theorem Glue.policies_agree_on_recognized (st : Glue.LockStatus) :
    (Glue.EVENT_TYPES_LOCK.contains (Glue.lowerStr st.lastLockEvent.eventType) = true →
      Glue.determineLockState true st = true ∧ Glue.determineLockState false st = true)
    ∧ (Glue.EVENT_TYPES_UNLOCK.contains (Glue.lowerStr st.lastLockEvent.eventType) = true →
      Glue.determineLockState true st = false ∧ Glue.determineLockState false st = false) := by
  have hT : Glue.determineLockState true st
      = Glue.EVENT_TYPES_LOCK.contains (Glue.lowerStr st.lastLockEvent.eventType) := rfl
  have hF : Glue.determineLockState false st
      = !(Glue.strIncludes (Glue.lowerStr st.lastLockEvent.eventType) "unlock") := rfl
  constructor
  · intro h
    rw [hT, hF]
    simp only [Glue.EVENT_TYPES_LOCK, List.contains_eq_any_beq, List.any_eq_true] at h
    obtain ⟨x, hx, hbeq⟩ := h
    have hx2 : Glue.lowerStr st.lastLockEvent.eventType = x := by
      exact (eq_of_beq hbeq)
    fin_cases hx <;> rw [hx2] <;> exact ⟨by decide, by decide⟩
  · intro h
    rw [hT, hF]
    simp only [Glue.EVENT_TYPES_UNLOCK, List.contains_eq_any_beq, List.any_eq_true] at h
    obtain ⟨x, hx, hbeq⟩ := h
    have hx2 : Glue.lowerStr st.lastLockEvent.eventType = x := by
      exact (eq_of_beq hbeq)
    fin_cases hx <;> rw [hx2] <;> exact ⟨by decide, by decide⟩

/-- Witness for C10 at concrete recognized event types. -/
theorem Glue.policies_agree_on_recognized_witness :
    (Glue.EVENT_TYPES_LOCK.contains
        (Glue.lowerStr (Glue.statusWithEvent "localLock").lastLockEvent.eventType) = true)
    ∧ Glue.determineLockState true (Glue.statusWithEvent "localLock") = true
    ∧ Glue.determineLockState false (Glue.statusWithEvent "localLock") = true := by
  have h := Glue.policies_agree_on_recognized (Glue.statusWithEvent "localLock")
  exact ⟨by decide, (h.1 (by decide)).1, (h.1 (by decide)).2⟩

/-! ## Claim C8 -/

/-- The adaptive interval as a plain conditional over the base. -/
theorem Glue.getPollingInterval_eq (settingsInterval : Option ℚ)
    (now lastOperationTime : Int) (consecutiveErrors : Nat) :
    Glue.getPollingInterval settingsInterval now lastOperationTime consecutiveErrors
      = if now - lastOperationTime < 60000 then
          max (Glue.baseInterval settingsInterval / 4) 5000
        else if 1 < consecutiveErrors then
          min (Glue.baseInterval settingsInterval * (1 + (consecutiveErrors : ℚ) * (1 / 2)))
            (Glue.baseInterval settingsInterval * 5)
        else Glue.baseInterval settingsInterval := rfl

/-- C8: for every combination of polling setting, operation recency and
consecutive-error count, the adaptive interval stays between 5000 ms
and five times the base interval, where the base is the configured
minutes clamped to [1, 60] in milliseconds; the recent-operation rule
takes precedence, fixing the interval to max(base / 4, 5000) whenever
an operation happened within the last 60000 ms. -/
theorem Glue.polling_interval_bounds (settingsInterval : Option ℚ)
    (now lastOperationTime : Int) (consecutiveErrors : Nat) :
    60000 ≤ Glue.baseInterval settingsInterval
    ∧ Glue.baseInterval settingsInterval ≤ 3600000
    ∧ 5000 ≤ Glue.getPollingInterval settingsInterval now lastOperationTime consecutiveErrors
    ∧ Glue.getPollingInterval settingsInterval now lastOperationTime consecutiveErrors
        ≤ Glue.baseInterval settingsInterval * 5
    ∧ (now - lastOperationTime < 60000 →
        Glue.getPollingInterval settingsInterval now lastOperationTime consecutiveErrors
          = max (Glue.baseInterval settingsInterval / 4) 5000) := by
  have hclamp1 : (1 : ℚ) ≤ min (max (Glue.settingOrDefault settingsInterval)
      Glue.POLLING_MIN_INTERVAL) Glue.POLLING_MAX_INTERVAL := by
    apply le_min
    · exact le_trans (by norm_num [Glue.POLLING_MIN_INTERVAL]) (le_max_right _ _)
    · norm_num [Glue.POLLING_MAX_INTERVAL]
  have hclamp2 : min (max (Glue.settingOrDefault settingsInterval)
      Glue.POLLING_MIN_INTERVAL) Glue.POLLING_MAX_INTERVAL ≤ 60 := by
    exact le_trans (min_le_right _ _) (by norm_num [Glue.POLLING_MAX_INTERVAL])
  have hlo : 60000 ≤ Glue.baseInterval settingsInterval := by
    unfold Glue.baseInterval
    nlinarith [hclamp1]
  have hhi : Glue.baseInterval settingsInterval ≤ 3600000 := by
    unfold Glue.baseInterval
    nlinarith [hclamp2]
  have hb0 : (0 : ℚ) ≤ Glue.baseInterval settingsInterval := by linarith
  refine ⟨hlo, hhi, ?_, ?_, ?_⟩ <;> rw [Glue.getPollingInterval_eq] <;> split_ifs with h1 h2
  · exact le_max_right _ _
  · refine le_min ?_ (by linarith)
    have he : (0 : ℚ) ≤ (consecutiveErrors : ℚ) := Nat.cast_nonneg _
    nlinarith [mul_nonneg hb0 he]
  · linarith
  · exact max_le (by linarith) (by linarith)
  · exact min_le_right _ _
  · linarith
  · intro _; rfl
  · intro hc; exact absurd hc h1
  · intro hc; exact absurd hc h1

/-- Witness for C8: right after an operation the recent-operation rule
applies and the bounds hold. -/
theorem Glue.polling_interval_bounds_witness :
    ((0 : Int) - 0 < 60000)
    ∧ Glue.getPollingInterval none 0 0 0 = max (Glue.baseInterval none / 4) 5000
    ∧ 5000 ≤ Glue.getPollingInterval none 0 0 0
    ∧ Glue.getPollingInterval none 0 0 0 ≤ Glue.baseInterval none * 5 := by
  have h := Glue.polling_interval_bounds none 0 0 0
  exact ⟨by decide, h.2.2.2.2 (by decide), h.2.2.1, h.2.2.2.1⟩

/-! ## Claim C5 -/

/-- C5: a user lock/unlock operation whose submission fails leaves the
published locked value equal to the locked flag of the last confirmed
observed state (the optimistic publish of the requested value is
reverted), increments the consecutive-error counter, and propagates
the submission error to the caller. -/
theorem Glue.operation_failure_reverts (s : Glue.DeviceState) (now : Int) (locked : Bool)
    (err : Glue.ApiError) :
    (Glue.onLockOperation s now locked (Except.error err)).1.consecutiveErrors
        = s.consecutiveErrors + 1
    ∧ (Glue.onLockOperation s now locked (Except.error err)).2 = Except.error err
    ∧ (∀ k, s.lastKnownState = some k →
        (Glue.onLockOperation s now locked (Except.error err)).1.publishedLocked
          = some k.locked) := by
  refine ⟨?_, ?_, fun k hk => ?_⟩ <;>
    cases hk2 : s.lastKnownState <;>
      simp_all [Glue.onLockOperation]

/-- A device state holding a confirmed locked observation. -/
def Glue.sampleLockedDevice : Glue.DeviceState :=
  { isFirmwareCompatible := true,
    lastKnownState := some { locked := true, timestamp := 0, batteryStatus := 50 },
    lastOperationTime := 0, consecutiveErrors := 0,
    publishedLocked := some true, publishedBattery := some 50 }

/-- Witness for C5: a failed unlock reverts to the confirmed locked
state. -/
theorem Glue.operation_failure_reverts_witness :
    Glue.sampleLockedDevice.lastKnownState
        = some { locked := true, timestamp := 0, batteryStatus := 50 }
    ∧ (Glue.onLockOperation Glue.sampleLockedDevice 100 false
        (Except.error { message := "boom", code := none, response := none })).1.publishedLocked
        = some true
    ∧ (Glue.onLockOperation Glue.sampleLockedDevice 100 false
        (Except.error { message := "boom", code := none, response := none })).1.consecutiveErrors
        = 1
    ∧ (Glue.onLockOperation Glue.sampleLockedDevice 100 false
        (Except.error { message := "boom", code := none, response := none })).2
        = Except.error { message := "boom", code := none, response := none } := by
  have h := Glue.operation_failure_reverts Glue.sampleLockedDevice 100 false
    { message := "boom", code := none, response := none }
  exact ⟨rfl, h.2.2 { locked := true, timestamp := 0, batteryStatus := 50 } rfl, h.1, h.2.1⟩

/-! ## Claim C6 -/

/-- C6: a reconciliation pass whose fetch fails resolves without
rethrowing (loadCurrentLockState is total into DeviceState), increments
the consecutive-error counter, leaves the published battery untouched,
and republishes the last known locked flag exactly when a last known
state exists whose age passes the validity check against the polling
interval computed with the incremented counter; otherwise the published
locked value is untouched. -/
theorem Glue.reconciliation_failure_recovery (s : Glue.DeviceState)
    (settingsInterval : Option ℚ) (now : Int) (err : Glue.ApiError) :
    (Glue.loadCurrentLockState s settingsInterval now (Except.error err)).consecutiveErrors
        = s.consecutiveErrors + 1
    ∧ (Glue.loadCurrentLockState s settingsInterval now (Except.error err)).publishedBattery
        = s.publishedBattery
    ∧ (∀ k, s.lastKnownState = some k →
        (Glue.isStateValid settingsInterval now s.lastOperationTime
            (s.consecutiveErrors + 1) k.timestamp = true →
          (Glue.loadCurrentLockState s settingsInterval now (Except.error err)).publishedLocked
            = some k.locked)
        ∧ (Glue.isStateValid settingsInterval now s.lastOperationTime
            (s.consecutiveErrors + 1) k.timestamp = false →
          (Glue.loadCurrentLockState s settingsInterval now (Except.error err)).publishedLocked
            = s.publishedLocked))
    ∧ (s.lastKnownState = none →
        (Glue.loadCurrentLockState s settingsInterval now (Except.error err)).publishedLocked
          = s.publishedLocked) := by
  refine ⟨?_, ?_, ?_, ?_⟩
  · cases hk : s.lastKnownState with
    | none => simp [Glue.loadCurrentLockState, hk]
    | some k =>
      by_cases hv : Glue.isStateValid settingsInterval now s.lastOperationTime
          (s.consecutiveErrors + 1) k.timestamp = true
      · simp [Glue.loadCurrentLockState, hk, hv]
      · simp [Glue.loadCurrentLockState, hk, hv]
  · cases hk : s.lastKnownState with
    | none => simp [Glue.loadCurrentLockState, hk]
    | some k =>
      by_cases hv : Glue.isStateValid settingsInterval now s.lastOperationTime
          (s.consecutiveErrors + 1) k.timestamp = true
      · simp [Glue.loadCurrentLockState, hk, hv]
      · simp [Glue.loadCurrentLockState, hk, hv]
  · intro k hk
    constructor
    · intro hv
      simp [Glue.loadCurrentLockState, hk, hv]
    · intro hv
      simp [Glue.loadCurrentLockState, hk, hv]
  · intro hk
    simp [Glue.loadCurrentLockState, hk]

/-- A device state whose confirmed observation is fresh at instant 0
while the last operation lies far in the past. -/
def Glue.sampleFreshDevice : Glue.DeviceState :=
  { isFirmwareCompatible := true,
    lastKnownState := some { locked := true, timestamp := 0, batteryStatus := 50 },
    lastOperationTime := -1000000, consecutiveErrors := 0,
    publishedLocked := some false, publishedBattery := some 50 }

/-- Witness for C6: when the fetch of a pass fails and the stored state
is fresh, its locked flag is republished and the counter reads 1. -/
theorem Glue.reconciliation_failure_recovery_witness :
    Glue.sampleFreshDevice.lastKnownState
        = some { locked := true, timestamp := 0, batteryStatus := 50 }
    ∧ Glue.isStateValid none 0 Glue.sampleFreshDevice.lastOperationTime 1 0 = true
    ∧ (Glue.loadCurrentLockState Glue.sampleFreshDevice none 0
        (Except.error { message := "boom", code := none, response := none })).publishedLocked
        = some true
    ∧ (Glue.loadCurrentLockState Glue.sampleFreshDevice none 0
        (Except.error { message := "boom", code := none, response := none })).consecutiveErrors
        = 1 := by
  have h := Glue.reconciliation_failure_recovery Glue.sampleFreshDevice none 0
    { message := "boom", code := none, response := none }
  have hv : Glue.isStateValid none 0 Glue.sampleFreshDevice.lastOperationTime 1 0 = true := by
    unfold Glue.isStateValid
    rw [Glue.getPollingInterval_eq]
    norm_num [Glue.sampleFreshDevice, Glue.baseInterval, Glue.settingOrDefault,
      Glue.POLLING_DEFAULT_INTERVAL, Glue.POLLING_MIN_INTERVAL, Glue.POLLING_MAX_INTERVAL]
  exact ⟨rfl, hv,
    (h.2.2.1 { locked := true, timestamp := 0, batteryStatus := 50 } rfl).1 hv, h.1⟩
